import Mathlib

/-!
Shallow embedding of the stock-control lot-ledger engine
(`src/api/app/routers/receipts.py`, `issues.py`, `lot_balances.py`,
`src/api/app/schemas.py`, `src/api/app/models.py`).

Modelling conventions:
* Python floats are modelled as exact rationals (`ℚ`).  `round(x, n)`
  (CPython: correctly-rounded decimal rounding of the binary value,
  ties to even) is modelled as exact decimal rounding of the rational
  with ties to even.
* SQLAlchemy rows are Lean structures; the database session is an explicit
  `DB` record of lists in insertion order, with autoincrement counters.
  `one_or_none()` / `.one()` are modelled by `oneOrNone` / `oneExact`,
  which fail (the SQLAlchemy exception, surfacing as HTTP 500) when the
  row multiplicity is wrong.
* `HTTPException` payloads are modelled as a structured `ApiError`
  inductive, one constructor per raise site, carrying the values the
  Python code interpolates into the message string.
* Python f-string comments and reasons on written rows are modelled as
  structured `Note` / `Reason` values carrying the interpolated data
  (Python float formatting itself is not modelled).
* Timestamps (`created_at`, `receipt_date`, `changed_at`, `edited_at`)
  are opaque to every claim and are omitted; dates that the logic
  compares or copies (`expiry_date`, `product_manufacture_date`) are
  kept as opaque integers.
* An operation that raises is modelled as returning `.error e` and no
  database: every raise in the source happens before `db.commit()`, so
  the transaction leaves zero writes (spec section 5).
-/

namespace StockControl

/-- Opaque calendar date (the code only copies and compares these). -/
abbrev Date := Int

/-- Row of `materials` (`models.Material`); timestamp columns omitted. -/
structure Material where
  id : Nat
  material_code : String
  name : String
  category_code : String
  type_code : String
  base_uom_code : String
  manufacturer : Option String := none
  supplier : Option String := none
  deriving Repr, DecidableEq

/-- Row of `material_approved_manufacturers` (`models.MaterialApprovedManufacturer`). -/
structure MaterialApprovedManufacturer where
  material_id : Nat
  manufacturer_name : String
  is_active : Bool
  deriving Repr, DecidableEq

/-- Row of `material_lots` (`models.MaterialLot`); timestamp columns omitted. -/
structure MaterialLot where
  id : Nat
  material_id : Nat
  lot_number : String
  expiry_date : Option Date := none
  status : String
  manufacturer : Option String := none
  supplier : Option String := none
  created_by : Option String := none
  deriving Repr, DecidableEq

/-- Structured stand-in for the f-string `comment` written on ledger rows
(`lot_balances.py` merge/split branches); `text` is a caller-supplied
comment passed through unchanged. -/
inductive Note where
  | text (s : String)
  | movedToExisting (qty : ℚ) (newStatus reasonText : String)
  | receivedFrom (qty : ℚ) (oldStatus reasonText : String)
  | movedToNew (qty : ℚ) (newStatus reasonText : String)
  deriving Repr, DecidableEq

/-- Structured stand-in for the `reason` column of `lot_status_changes`:
either the trimmed caller reason verbatim, or the merge-destination
f-string noting the merged amount. -/
inductive Reason where
  | text (s : String)
  | mergedIn (qty : ℚ) (oldStatus baseReason : String)
  deriving Repr, DecidableEq

/-- Row of `stock_transactions` (`models.StockTransaction`); timestamp
columns omitted, `consumption_type` defaults to the column default. -/
structure StockTransaction where
  id : Nat
  material_lot_id : Nat
  txn_type : String
  consumption_type : String := "USAGE"
  qty : ℚ
  uom_code : String
  direction : Int
  unit_price : Option ℚ := none
  total_value : Option ℚ := none
  target_ref : Option String := none
  product_batch_no : Option String := none
  product_manufacture_date : Option Date := none
  comment : Option Note := none
  material_status_at_txn : Option String := none
  created_by : Option String := none
  deriving Repr, DecidableEq

/-- Row of `lot_status_changes` (`models.LotStatusChange`); `changed_at` omitted. -/
structure LotStatusChange where
  material_lot_id : Nat
  old_status : String
  new_status : String
  reason : Reason
  changed_by : Option String := none
  deriving Repr, DecidableEq

/-- Row of `stock_transaction_edits` (`models.StockTransactionEdit`).
`snapshot_txn` serialises the full row deterministically; the snapshot is
modelled as the row value itself. -/
structure StockTransactionEdit where
  stock_transaction_id : Nat
  edited_by : String
  edit_reason : String
  before_json : StockTransaction
  after_json : StockTransaction
  deriving Repr, DecidableEq

/-- The relational store: every table the routers under verification touch,
in insertion order, plus the autoincrement counters for the two tables
whose fresh primary keys the code reads back (`db.flush()` / `refresh`). -/
structure DB where
  materials : List Material
  approved_manufacturers : List MaterialApprovedManufacturer
  lots : List MaterialLot
  txns : List StockTransaction
  status_changes : List LotStatusChange
  edits : List StockTransactionEdit
  nextLotId : Nat
  nextTxnId : Nat
  deriving Repr, DecidableEq

/-- One constructor per raise site of the three routers; numeric fields are
the values the Python code interpolates into the `detail` message.
`multipleRows` / `rowMissing` model the SQLAlchemy exceptions from
`one_or_none()` / `.one()` with unexpected row multiplicity. -/
inductive ApiError where
  | esCriteria
  | materialNotFound
  | manufacturerNotApproved
  | lotNotFound
  | invalidLotStatus
  | reasonRequired
  | statusAlreadySet
  | zeroBalance
  | moveQtyRequired
  | moveQtyNotPositive
  | moveQtyExceedsBalance (balance requested : ℚ)
  | lotSegmentNotFound
  | multipleLotSegments
  | insufficientStock (lotNumber : String) (available requested : ℚ)
  | editReasonRequired
  | receiptNotFound
  | issueNotFound
  | editNegativeBalance (lotNumber : String) (newBalance : ℚ)
  | multipleRows
  | rowMissing
  deriving Repr, DecidableEq

/-- HTTP status code of each error, as in the corresponding `HTTPException`. -/
def ApiError.statusCode : ApiError → Nat
  | .materialNotFound | .lotNotFound | .lotSegmentNotFound
  | .receiptNotFound | .issueNotFound => 404
  | .multipleRows | .rowMissing => 500
  | _ => 400

/-- Model of SQLAlchemy `Query.one_or_none()` on the rows matching a filter. -/
def oneOrNone {α : Type} : List α → Except ApiError (Option α)
  | [] => .ok none
  | [a] => .ok (some a)
  | _ => .error .multipleRows

/-- Model of SQLAlchemy `Query.one()` on the rows matching a filter. -/
def oneExact {α : Type} : List α → Except ApiError α
  | [] => .error .rowMissing
  | [a] => .ok a
  | _ => .error .multipleRows

/-- Python string truthiness for `Optional[str]`: `None` and `""` are falsy. -/
def pyTruthy : Option String → Bool
  | none => false
  | some v => v != ""

/-- Model of `(s or "").strip() or None` (`lot_balances.py` line 181). -/
def stripOrNone (s : Option String) : Option String :=
  let v := (s.getD "").trim
  if v = "" then none else some v

/-- Signed sum `SUM(qty * direction)` of the entries of one segment within
a transaction list, coalesced to zero when empty. -/
def ledgerBalance (ts : List StockTransaction) (lotId : Nat) : ℚ :=
  ((ts.filter (fun t => t.material_lot_id == lotId)).map
    (fun t => t.qty * (t.direction : ℚ))).sum

/-- `_get_lot_balance` (`lot_balances.py` lines 98-106) and the identical
inline balance queries in `receipts.py`/`issues.py`:
`COALESCE(SUM(qty * direction), 0)` over the segment's ledger entries. -/
def lotBalance (db : DB) (lotId : Nat) : ℚ :=
  ledgerBalance db.txns lotId

/-- Whether an endpoint call committed (no `HTTPException`, HTTP 2xx). -/
def isAccepted {α : Type} : Except ApiError α → Bool
  | .ok _ => true
  | .error _ => false

/-- `ALLOWED_LOT_STATUSES` (`lot_balances.py` line 15). -/
def allowedLotStatuses : List String := ["AVAILABLE", "QUARANTINE", "REJECTED"]

/-- `STATUS_ALIASES` (`lot_balances.py` lines 18-20). -/
def statusAliases : List (String × String) := [("RELEASED", "AVAILABLE")]

/-- `_normalise_status` (`lot_balances.py` lines 109-111); every call site
passes a non-null string, so the `(s or "")` guard is dropped. -/
def _normalise_status (s : String) : String :=
  let val := s.trim.toUpper
  ((statusAliases.lookup val).getD val)

/-- Decimal rounding of an exact rational with ties to even: the behaviour
of CPython `round(x, n)` on the exact value of the binary float `x`. -/
def roundHalfEven (x : ℚ) : ℤ :=
  let f : ℤ := Int.floor x
  let r : ℚ := x - (f : ℚ)
  if r < 1 / 2 then f
  else if 1 / 2 < r then f + 1
  else if f % 2 = 0 then f else f + 1

/-- Rounding to `n` decimal places with ties to even (`round(x, n)`). -/
def pyRound (x : ℚ) (pow10 : ℚ) : ℚ :=
  ((roundHalfEven (x * pow10) : ℚ)) / pow10

/-- The `1e-12` epsilon both routers add before rounding. -/
def eps12 : ℚ := 1 / 10 ^ 12

/-- `_round_money` (`receipts.py` lines 32-35, duplicated in `issues.py`
lines 17-20): `round(float(value) + 1e-12, 2)`, passing `None` through. -/
def _round_money : Option ℚ → Option ℚ
  | none => none
  | some v => some (pyRound (v + eps12) 100)

/-- `_round_unit` (`receipts.py` lines 38-41, duplicated in `issues.py`
lines 23-26): `round(float(value) + 1e-12, 4)`, passing `None` through. -/
def _round_unit : Option ℚ → Option ℚ
  | none => none
  | some v => some (pyRound (v + eps12) 10000)

/-- `_derive_costs` (`receipts.py` lines 44-66). -/
def _derive_costs (qty : ℚ) (unit_price total_value : Option ℚ) :
    Option ℚ × Option ℚ :=
  let q := qty
  if q ≤ 0 then (none, none)
  else
    match total_value with
    | some tv => (_round_unit (some (tv / q)), _round_money (some tv))
    | none =>
      match unit_price with
      | some up => (_round_unit (some up), _round_money (some (q * up)))
      | none => (none, none)

/-- Value a RECEIPT row contributes to the weighted-cost numerator:
`COALESCE(total_value, unit_price * qty)`; a row where both are NULL is a
NULL summand, which SQL `SUM` skips, i.e. contributes zero. -/
def receiptValueContribution (t : StockTransaction) : ℚ :=
  match t.total_value with
  | some tv => tv
  | none =>
    match t.unit_price with
    | some up => up * t.qty
    | none => 0

/-- RECEIPT rows of one segment (the filter of `_lot_weighted_unit_price`). -/
def lotReceipts (db : DB) (lot_id : Nat) : List StockTransaction :=
  db.txns.filter (fun t => t.material_lot_id == lot_id && t.txn_type == "RECEIPT")

/-- Numerator `SUM(COALESCE(total_value, unit_price * qty))` of the
weighted average, coalesced to zero over an empty sum. -/
def lotReceiptValueSum (db : DB) (lot_id : Nat) : ℚ :=
  ((lotReceipts db lot_id).map receiptValueContribution).sum

/-- Denominator `SUM(qty)` of the weighted average, coalesced to zero. -/
def lotReceiptQtySum (db : DB) (lot_id : Nat) : ℚ :=
  ((lotReceipts db lot_id).map (fun t => t.qty)).sum

/-- `_lot_weighted_unit_price` (`issues.py` lines 29-58). -/
def _lot_weighted_unit_price (db : DB) (lot_id : Nat) : Option ℚ :=
  let sum_value := lotReceiptValueSum db lot_id
  let sum_qty := lotReceiptQtySum db lot_id
  if sum_qty ≤ 0 then none
  else _round_unit (some (sum_value / sum_qty))

/-- `schemas.ReceiptCreate` (`schemas.py` lines 122-139); `receipt_date` and
`created_by` (both overridden or timestamp-only) omitted.  Note: `qty` is a
bare `float` with no positivity constraint. -/
structure ReceiptCreate where
  material_code : String
  lot_number : String
  expiry_date : Option Date := none
  qty : ℚ
  uom_code : String
  unit_price : Option ℚ := none
  total_value : Option ℚ := none
  target_ref : Option String := none
  supplier : Option String := none
  manufacturer : Option String := none
  complies_es_criteria : Option Bool := some true
  comment : Option String := none
  deriving Repr, DecidableEq

/-- `schemas.ReceiptUpdate` (`schemas.py` lines 143-154); `receipt_date`
(timestamp-only) omitted. -/
structure ReceiptUpdate where
  qty : ℚ
  unit_price : Option ℚ := none
  total_value : Option ℚ := none
  target_ref : Option String := none
  comment : Option String := none
  edit_reason : String
  deriving Repr, DecidableEq

/-- `schemas.IssueCreate` (`schemas.py` lines 181-201); note the schema has
NO `unit_price` / `total_value` fields — an issue cannot carry caller
pricing. -/
structure IssueCreate where
  material_code : String
  lot_number : String
  material_lot_id : Option Nat := none
  qty : ℚ
  uom_code : String
  product_batch_no : Option String := none
  product_manufacture_date : Option Date := none
  consumption_type : String := "USAGE"
  target_ref : Option String := none
  comment : Option String := none
  deriving Repr, DecidableEq

/-- Wire form of an issue-creation request: what a caller may put in the
JSON body, including `unit_price` / `total_value` keys.  Pydantic's default
model config silently ignores keys that are not schema fields, which
`parseIssueCreate` models. -/
structure IssueCreateRequest where
  material_code : String
  lot_number : String
  material_lot_id : Option Nat := none
  qty : ℚ
  uom_code : String
  product_batch_no : Option String := none
  product_manufacture_date : Option Date := none
  consumption_type : String := "USAGE"
  target_ref : Option String := none
  comment : Option String := none
  unit_price : Option ℚ := none
  total_value : Option ℚ := none
  deriving Repr, DecidableEq

/-- Pydantic validation of the request body against `schemas.IssueCreate`:
the `unit_price` / `total_value` keys are not fields of the schema and are
dropped. -/
def parseIssueCreate (r : IssueCreateRequest) : IssueCreate :=
  { material_code := r.material_code
    lot_number := r.lot_number
    material_lot_id := r.material_lot_id
    qty := r.qty
    uom_code := r.uom_code
    product_batch_no := r.product_batch_no
    product_manufacture_date := r.product_manufacture_date
    consumption_type := r.consumption_type
    target_ref := r.target_ref
    comment := r.comment }

/-- `schemas.IssueUpdate` (`schemas.py` lines 205-217). -/
structure IssueUpdate where
  qty : ℚ
  uom_code : Option String := none
  product_batch_no : Option String := none
  product_manufacture_date : Option Date := none
  consumption_type : String := "USAGE"
  target_ref : Option String := none
  comment : Option String := none
  edit_reason : String
  deriving Repr, DecidableEq

/-- `schemas.LotStatusChangeCreate` (`schemas.py` lines 268-276). -/
structure LotStatusChangeCreate where
  new_status : String
  reason : String
  changed_by : Option String := none
  whole_lot : Bool := true
  move_qty : Option ℚ := none
  deriving Repr, DecidableEq

/-- Lookup of `MaterialLot` by primary key (`filter(MaterialLot.id == x)`). -/
def findLot (db : DB) (lotId : Nat) : Option MaterialLot :=
  db.lots.find? (fun m => m.id == lotId)

/-- First element by ascending `id`: `order_by(MaterialLot.id.asc()).first()`. -/
def minById (l : List MaterialLot) : Option MaterialLot :=
  l.foldl
    (fun acc m =>
      match acc with
      | none => some m
      | some a => if m.id < a.id then some m else some a)
    none

/-- Destination-segment lookup of `change_lot_status` (`lot_balances.py`
lines 193-207): same material and printed lot number, raw status in the
target list (for AVAILABLE the legacy RELEASED rows also match), excluding
the source row, first by ascending id. -/
def destLookup (db : DB) (lot : MaterialLot) (new_status : String) :
    Option MaterialLot :=
  let dest_statuses :=
    if new_status = "AVAILABLE" then ["AVAILABLE", "RELEASED"] else [new_status]
  minById (db.lots.filter (fun m =>
    m.material_id == lot.material_id &&
    m.lot_number == lot.lot_number &&
    dest_statuses.contains m.status &&
    m.id != lot.id))

/-- `change_lot_status` (`lot_balances.py` lines 114-331), up to and
including the commit; the trailing re-read of `lot_balances_view` (a
display query against a SQL view outside `src/`) is not modelled and the
endpoint result is the committed database.  The `float(move_qty)`
conversion cannot fail on a pydantic-validated `Optional[float]`, so the
`move_qty must be a number` raise site is unreachable and not modelled. -/
def change_lot_status (db : DB) (material_lot_id : Nat)
    (payload : LotStatusChangeCreate) : Except ApiError DB :=
  match findLot db material_lot_id with
  | none => .error .lotNotFound
  | some lot =>
    let new_status := _normalise_status payload.new_status
    if new_status ∉ allowedLotStatuses then .error .invalidLotStatus
    else if payload.reason.trim = "" then .error .reasonRequired
    else
      let old_status := _normalise_status lot.status
      if new_status = old_status then .error .statusAlreadySet
      else
        let current_balance := lotBalance db lot.id
        if current_balance ≤ 0 then .error .zeroBalance
        else
          let whole_lot := payload.whole_lot
          match (if whole_lot then some current_balance else payload.move_qty) with
          | none => .error .moveQtyRequired
          | some move_qty_f =>
            if move_qty_f ≤ 0 then .error .moveQtyNotPositive
            else if current_balance < move_qty_f then
              .error (.moveQtyExceedsBalance current_balance move_qty_f)
            else
              let reason := payload.reason.trim
              let changed_by := stripOrNone payload.changed_by
              match oneExact (db.materials.filter (fun m => m.id == lot.material_id)) with
              | .error e => .error e
              | .ok material =>
                let uom_code := material.base_uom_code
                match destLookup db lot new_status with
                | some dest_lot =>
                  .ok { db with
                    txns := db.txns ++
                      [{ id := db.nextTxnId
                         material_lot_id := lot.id
                         txn_type := "STATUS_MOVE"
                         qty := move_qty_f
                         uom_code := uom_code
                         direction := -1
                         comment := some (.movedToExisting move_qty_f new_status reason)
                         created_by := changed_by },
                       { id := db.nextTxnId + 1
                         material_lot_id := dest_lot.id
                         txn_type := "STATUS_MOVE"
                         qty := move_qty_f
                         uom_code := uom_code
                         direction := 1
                         comment := some (.receivedFrom move_qty_f old_status reason)
                         created_by := changed_by }]
                    status_changes := db.status_changes ++
                      [{ material_lot_id := lot.id
                         old_status := old_status
                         new_status := new_status
                         reason := .text reason
                         changed_by := changed_by },
                       { material_lot_id := dest_lot.id
                         old_status := _normalise_status dest_lot.status
                         new_status := new_status
                         reason := .mergedIn move_qty_f old_status reason
                         changed_by := changed_by }]
                    nextTxnId := db.nextTxnId + 2 }
                | none =>
                  if whole_lot then
                    .ok { db with
                      lots := db.lots.map (fun m =>
                        if m.id == lot.id then { m with status := new_status } else m)
                      status_changes := db.status_changes ++
                        [{ material_lot_id := lot.id
                           old_status := old_status
                           new_status := new_status
                           reason := .text reason
                           changed_by := changed_by }] }
                  else
                    let new_lot : MaterialLot :=
                      { id := db.nextLotId
                        material_id := lot.material_id
                        lot_number := lot.lot_number
                        expiry_date := lot.expiry_date
                        status := new_status
                        manufacturer := lot.manufacturer
                        supplier := lot.supplier
                        created_by := changed_by }
                    .ok { db with
                      lots := db.lots ++ [new_lot]
                      nextLotId := db.nextLotId + 1
                      txns := db.txns ++
                        [{ id := db.nextTxnId
                           material_lot_id := lot.id
                           txn_type := "STATUS_MOVE"
                           qty := move_qty_f
                           uom_code := uom_code
                           direction := -1
                           comment := some (.movedToNew move_qty_f new_status reason)
                           created_by := changed_by },
                         { id := db.nextTxnId + 1
                           material_lot_id := new_lot.id
                           txn_type := "STATUS_MOVE"
                           qty := move_qty_f
                           uom_code := uom_code
                           direction := 1
                           comment := some (.receivedFrom move_qty_f old_status reason)
                           created_by := changed_by }]
                      status_changes := db.status_changes ++
                        [{ material_lot_id := lot.id
                           old_status := old_status
                           new_status := new_status
                           reason := .text reason
                           changed_by := changed_by },
                         { material_lot_id := new_lot.id
                           old_status := old_status
                           new_status := new_status
                           reason := .text reason
                           changed_by := changed_by }]
                      nextTxnId := db.nextTxnId + 2 }

/-- Approved-manufacturer gate of `create_receipt` (`receipts.py` lines
91-116): only for TABLETS_CAPSULES materials with a non-empty active
approved list; compares trimmed upper-cased names. -/
def tabletsManufacturerCheck (db : DB) (material : Material)
    (payload : ReceiptCreate) : Except ApiError Unit :=
  if material.category_code = "TABLETS_CAPSULES" then
    let approved_names :=
      ((db.approved_manufacturers.filter (fun r =>
          r.material_id == material.id && r.is_active)).map
        (fun r => r.manufacturer_name.trim.toUpper)).filter (fun n => n != "")
    if approved_names ≠ [] then
      let incoming := (payload.manufacturer.getD "").trim.toUpper
      if incoming = "" ∨ incoming ∉ approved_names then
        .error .manufacturerNotApproved
      else .ok ()
    else .ok ()
  else .ok ()

/-- Lot resolution of `create_receipt` (`receipts.py` lines 118-146):
`one_or_none` on (material, printed lot number); on a miss a fresh
AVAILABLE segment is created, on a hit expiry/manufacturer/supplier are
conditionally refreshed. -/
def receiptLot (db : DB) (material : Material) (payload : ReceiptCreate)
    (created_by : String) : Except ApiError (DB × MaterialLot) :=
  match oneOrNone (db.lots.filter (fun m =>
      m.material_id == material.id && m.lot_number == payload.lot_number)) with
  | .error e => .error e
  | .ok none =>
    let lot : MaterialLot :=
      { id := db.nextLotId
        material_id := material.id
        lot_number := payload.lot_number
        expiry_date := payload.expiry_date
        status := "AVAILABLE"
        manufacturer := payload.manufacturer
        supplier := payload.supplier
        created_by := some created_by }
    .ok ({ db with lots := db.lots ++ [lot], nextLotId := db.nextLotId + 1 }, lot)
  | .ok (some lot0) =>
    let lot1 :=
      match payload.expiry_date with
      | some d => if lot0.expiry_date ≠ some d then { lot0 with expiry_date := some d } else lot0
      | none => lot0
    let lot2 :=
      if pyTruthy payload.manufacturer && !pyTruthy lot1.manufacturer then
        { lot1 with manufacturer := payload.manufacturer }
      else lot1
    let lot3 :=
      if pyTruthy payload.supplier && !pyTruthy lot2.supplier then
        { lot2 with supplier := payload.supplier }
      else lot2
    .ok ({ db with lots := db.lots.map (fun m => if m.id == lot0.id then lot3 else m) }, lot3)

/-- `create_receipt` (`receipts.py` lines 69-200), up to and including the
commit; the response view is the committed transaction row.  `created_by`
is the authenticated username (`user.username`). -/
def create_receipt (db : DB) (payload : ReceiptCreate) (created_by : String) :
    Except ApiError (DB × StockTransaction) :=
  if payload.complies_es_criteria ≠ some true then .error .esCriteria
  else
    match oneOrNone (db.materials.filter (fun m =>
        m.material_code == payload.material_code)) with
    | .error e => .error e
    | .ok none => .error .materialNotFound
    | .ok (some material) =>
      match tabletsManufacturerCheck db material payload with
      | .error e => .error e
      | .ok _ =>
        match receiptLot db material payload created_by with
        | .error e => .error e
        | .ok (db1, lot) =>
          let material1 :=
            if pyTruthy payload.manufacturer && !pyTruthy material.manufacturer then
              { material with manufacturer := payload.manufacturer }
            else material
          let material2 :=
            if pyTruthy payload.supplier && !pyTruthy material1.supplier then
              { material1 with supplier := payload.supplier }
            else material1
          let db2 := { db1 with materials := db1.materials.map (fun m : Material =>
            if m.id == material.id then material2 else m) }
          let costs := _derive_costs payload.qty payload.unit_price payload.total_value
          let txn : StockTransaction :=
            { id := db2.nextTxnId
              material_lot_id := lot.id
              txn_type := "RECEIPT"
              qty := payload.qty
              uom_code := payload.uom_code
              direction := 1
              unit_price := costs.1
              total_value := costs.2
              target_ref := payload.target_ref
              comment := payload.comment.map Note.text
              created_by := some created_by }
          .ok ({ db2 with txns := db2.txns ++ [txn], nextTxnId := db2.nextTxnId + 1 }, txn)

/-- Lot resolution of `create_issue` (`issues.py` lines 77-119): a given
`material_lot_id` must resolve under the material; otherwise all segments
of the printed lot number are fetched — none creates a fresh AVAILABLE
segment, exactly one is used, several is an error. -/
def issueLot (db : DB) (material : Material) (payload : IssueCreate)
    (created_by : String) : Except ApiError (DB × MaterialLot) :=
  match payload.material_lot_id with
  | some lid =>
    (match oneOrNone (db.lots.filter (fun m =>
        m.id == lid && m.material_id == material.id)) with
     | .error e => .error e
     | .ok none => .error .lotSegmentNotFound
     | .ok (some lot) => .ok (db, lot))
  | none =>
    match db.lots.filter (fun m =>
        m.material_id == material.id && m.lot_number == payload.lot_number) with
    | [] =>
      let lot : MaterialLot :=
        { id := db.nextLotId
          material_id := material.id
          lot_number := payload.lot_number
          expiry_date := none
          status := "AVAILABLE"
          created_by := some created_by }
      .ok ({ db with lots := db.lots ++ [lot], nextLotId := db.nextLotId + 1 }, lot)
    | [lot] => .ok (db, lot)
    | _ => .error .multipleLotSegments

/-- `create_issue` (`issues.py` lines 61-193), up to and including the
commit; the response view is the committed transaction row. -/
def create_issue (db : DB) (payload : IssueCreate) (created_by : String) :
    Except ApiError (DB × StockTransaction) :=
  match oneOrNone (db.materials.filter (fun m =>
      m.material_code == payload.material_code)) with
  | .error e => .error e
  | .ok none => .error .materialNotFound
  | .ok (some material) =>
    match issueLot db material payload created_by with
    | .error e => .error e
    | .ok (db1, lot) =>
      let current_balance := lotBalance db1 lot.id
      if current_balance < payload.qty then
        .error (.insufficientStock lot.lot_number current_balance payload.qty)
      else
        let lot_unit_price := _lot_weighted_unit_price db1 lot.id
        let issue_total_value :=
          match lot_unit_price with
          | some up => _round_money (some (payload.qty * up))
          | none => none
        let txn : StockTransaction :=
          { id := db1.nextTxnId
            material_lot_id := lot.id
            txn_type := "ISSUE"
            consumption_type :=
              if payload.consumption_type = "" then "USAGE" else payload.consumption_type
            qty := payload.qty
            uom_code := payload.uom_code
            direction := -1
            unit_price := lot_unit_price
            total_value := issue_total_value
            target_ref := payload.target_ref
            product_batch_no := payload.product_batch_no
            product_manufacture_date := payload.product_manufacture_date
            comment := payload.comment.map Note.text
            material_status_at_txn := some lot.status
            created_by := some created_by }
        .ok ({ db1 with txns := db1.txns ++ [txn], nextTxnId := db1.nextTxnId + 1 }, txn)

/-- The POST /issues/ endpoint as seen by a caller: pydantic body
validation (which drops the non-schema `unit_price` / `total_value` keys)
followed by `create_issue`. -/
def createIssueEndpoint (db : DB) (req : IssueCreateRequest) (created_by : String) :
    Except ApiError (DB × StockTransaction) :=
  create_issue db (parseIssueCreate req) created_by

/-- In-place field mutation of a RECEIPT row under edit (`receipts.py`
lines 287-313): new quantity, the three-way costing branch, then
references and comment.  `receipt_date` only touches the omitted
timestamp. -/
def receiptEditTxn (txn : StockTransaction) (payload : ReceiptUpdate) :
    StockTransaction :=
  let txn1 := { txn with qty := payload.qty }
  let txn2 :=
    match payload.total_value with
    | some tv =>
      let costs := _derive_costs txn1.qty none (some tv)
      { txn1 with unit_price := costs.1, total_value := costs.2 }
    | none =>
      match payload.unit_price with
      | some up =>
        let costs := _derive_costs txn1.qty (some up) none
        { txn1 with unit_price := costs.1, total_value := costs.2 }
      | none =>
        let incoming_unit := txn.unit_price
        let incoming_total := txn.total_value
        let txn' := { txn1 with unit_price := _round_unit incoming_unit }
        match txn'.unit_price with
        | some u => { txn' with total_value := _round_money (some (txn'.qty * u)) }
        | none => { txn' with total_value := _round_money incoming_total }
  { txn2 with target_ref := payload.target_ref, comment := payload.comment.map Note.text }

/-- `update_receipt` (`receipts.py` lines 246-350), up to and including the
commit. -/
def update_receipt (db : DB) (receipt_id : Nat) (payload : ReceiptUpdate)
    (username : String) : Except ApiError DB :=
  let reason := payload.edit_reason.trim
  if reason = "" then .error .editReasonRequired
  else
    match oneOrNone (db.txns.filter (fun t => t.id == receipt_id)) with
    | .error e => .error e
    | .ok none => .error .receiptNotFound
    | .ok (some txn) =>
      if txn.txn_type ≠ "RECEIPT" then .error .receiptNotFound
      else
        match oneExact (db.lots.filter (fun m => m.id == txn.material_lot_id)) with
        | .error e => .error e
        | .ok lot =>
          match oneExact (db.materials.filter (fun m => m.id == lot.material_id)) with
          | .error e => .error e
          | .ok _material =>
            let before := txn
            let current_balance := lotBalance db txn.material_lot_id
            let balance_without_old := current_balance - txn.qty
            let new_balance := balance_without_old + payload.qty
            if new_balance < -(1 / 10 ^ 9) then
              .error (.editNegativeBalance lot.lot_number new_balance)
            else
              let txn3 := receiptEditTxn txn payload
              let audit : StockTransactionEdit :=
                { stock_transaction_id := txn.id
                  edited_by := username
                  edit_reason := reason
                  before_json := before
                  after_json := txn3 }
              .ok { db with
                txns := db.txns.map (fun t => if t.id == txn.id then txn3 else t)
                edits := db.edits ++ [audit] }

/-- In-place field mutation of an ISSUE row under edit (`issues.py` lines
285-301): writable fields are replaced, the status-at-entry snapshot is
not assigned, the existing unit price is kept when present (else the
weighted receipt average), and the total is recomputed against the new
quantity. -/
def issueEditTxn (db : DB) (txn : StockTransaction) (lot : MaterialLot)
    (payload : IssueUpdate) : StockTransaction :=
  let unit_price :=
    match txn.unit_price with
    | some u => some u
    | none => _lot_weighted_unit_price db lot.id
  { txn with
    qty := payload.qty
    consumption_type :=
      if payload.consumption_type = "" then "USAGE" else payload.consumption_type
    target_ref := payload.target_ref
    product_batch_no := payload.product_batch_no
    product_manufacture_date := payload.product_manufacture_date
    comment := payload.comment.map Note.text
    unit_price := unit_price
    total_value :=
      match unit_price with
      | some u => _round_money (some (payload.qty * u))
      | none => none }

/-- `update_issue` (`issues.py` lines 245-338), up to and including the
commit. -/
def update_issue (db : DB) (issue_id : Nat) (payload : IssueUpdate)
    (username : String) : Except ApiError DB :=
  let reason := payload.edit_reason.trim
  if reason = "" then .error .editReasonRequired
  else
    match oneOrNone (db.txns.filter (fun t => t.id == issue_id)) with
    | .error e => .error e
    | .ok none => .error .issueNotFound
    | .ok (some txn) =>
      if txn.txn_type ≠ "ISSUE" then .error .issueNotFound
      else
        match oneExact (db.lots.filter (fun m => m.id == txn.material_lot_id)) with
        | .error e => .error e
        | .ok lot =>
          match oneExact (db.materials.filter (fun m => m.id == lot.material_id)) with
          | .error e => .error e
          | .ok _material =>
            let before := txn
            let current_balance := lotBalance db txn.material_lot_id
            let balance_without_old := current_balance + txn.qty
            if balance_without_old + 1 / 10 ^ 9 < payload.qty then
              .error (.insufficientStock lot.lot_number balance_without_old payload.qty)
            else
              let txn1 := issueEditTxn db txn lot payload
              let audit : StockTransactionEdit :=
                { stock_transaction_id := txn.id
                  edited_by := username
                  edit_reason := reason
                  before_json := before
                  after_json := txn1 }
              .ok { db with
                txns := db.txns.map (fun t => if t.id == txn.id then txn1 else t)
                edits := db.edits ++ [audit] }

/-! Concrete database states and payloads used by counterexamples and
witnesses.  Each state is reachable through the public interface (a
material master plus the listed receipts/issues). -/

/-- One raw material, category not TABLETS_CAPSULES. -/
def matW : Material :=
  { id := 1
    material_code := "M1"
    name := "Mat One"
    category_code := "RAW"
    type_code := "T1"
    base_uom_code := "KG" }

/-- Database with the material master only: no lots, no ledger. -/
def dbEmpty : DB :=
  { materials := [matW]
    approved_manufacturers := []
    lots := []
    txns := []
    status_changes := []
    edits := []
    nextLotId := 1
    nextTxnId := 1 }

/-- Receipt payload with a negative quantity (the schema does not
constrain `qty`), `complies_es_criteria` left at its default. -/
def pNegReceipt : ReceiptCreate :=
  { material_code := "M1", lot_number := "L1", qty := -5, uom_code := "KG" }

/-- Two segments of the same printed lot: source in QUARANTINE with
balance 30, destination in AVAILABLE with balance 100. -/
def dbMerge : DB :=
  { materials := [matW]
    approved_manufacturers := []
    lots := [{ id := 1, material_id := 1, lot_number := "L1", status := "QUARANTINE" },
             { id := 2, material_id := 1, lot_number := "L1", status := "AVAILABLE" }]
    txns := [{ id := 1, material_lot_id := 1, txn_type := "RECEIPT", qty := 30,
               uom_code := "KG", direction := 1 },
             { id := 2, material_lot_id := 2, txn_type := "RECEIPT", qty := 100,
               uom_code := "KG", direction := 1 }]
    status_changes := []
    edits := []
    nextLotId := 3
    nextTxnId := 3 }

/-- Whole-lot move of the QUARANTINE segment to AVAILABLE. -/
def pMerge : LotStatusChangeCreate :=
  { new_status := "AVAILABLE", reason := "qc ok", changed_by := some "eve",
    whole_lot := true }

/-- A single QUARANTINE segment with balance 150 and no other segment of
the lot (so no destination exists). -/
def dbFlip : DB :=
  { materials := [matW]
    approved_manufacturers := []
    lots := [{ id := 1, material_id := 1, lot_number := "L1", status := "QUARANTINE" }]
    txns := [{ id := 1, material_lot_id := 1, txn_type := "RECEIPT", qty := 150,
               uom_code := "KG", direction := 1 }]
    status_changes := []
    edits := []
    nextLotId := 2
    nextTxnId := 2 }

/-- Whole-lot QUARANTINE to AVAILABLE change on `dbFlip` (Case B). -/
def pFlip : LotStatusChangeCreate :=
  { new_status := "AVAILABLE", reason := "qc passed", whole_lot := true }

/-- A single AVAILABLE segment with balance 150. -/
def dbSplit : DB :=
  { materials := [matW]
    approved_manufacturers := []
    lots := [{ id := 1, material_id := 1, lot_number := "L1", status := "AVAILABLE" }]
    txns := [{ id := 1, material_lot_id := 1, txn_type := "RECEIPT", qty := 150,
               uom_code := "KG", direction := 1 }]
    status_changes := []
    edits := []
    nextLotId := 2
    nextTxnId := 2 }

/-- Partial move of 50 of the 150 AVAILABLE units to REJECTED (Case C). -/
def pSplit : LotStatusChangeCreate :=
  { new_status := "REJECTED", reason := "damaged", whole_lot := false,
    move_qty := some 50 }

/-- Partial move whose quantity exceeds the balance 150 by exactly 1e-9. -/
def pOverBalance : LotStatusChangeCreate :=
  { new_status := "QUARANTINE", reason := "qa hold", whole_lot := false,
    move_qty := some (150 + 1 / 10 ^ 9) }

/-- One AVAILABLE segment with a single receipt of 100 units at total
value 200 (unit price 2). -/
def dbPriced : DB :=
  { materials := [matW]
    approved_manufacturers := []
    lots := [{ id := 1, material_id := 1, lot_number := "L1", status := "AVAILABLE" }]
    txns := [{ id := 1, material_lot_id := 1, txn_type := "RECEIPT", qty := 100,
               uom_code := "KG", direction := 1, unit_price := some 2,
               total_value := some 200 }]
    status_changes := []
    edits := []
    nextLotId := 2
    nextTxnId := 2 }

/-- Issue request whose caller supplies `total_value = 500` and
`unit_price = 50` for 10 units (keys the schema does not have). -/
def reqPricedIssue : IssueCreateRequest :=
  { material_code := "M1", lot_number := "L1", qty := 10, uom_code := "KG",
    unit_price := some 50, total_value := some 500 }

/-- Issue payload consuming the whole balance of `dbPriced`. -/
def pWholeIssue : IssueCreate :=
  { material_code := "M1", lot_number := "L1", qty := 100, uom_code := "KG" }

/-- Segment whose balance is negative (-5), as left by the accepted
negative-quantity receipt of `pNegReceipt` (see C1). -/
def dbNegBalance : DB :=
  { materials := [matW]
    approved_manufacturers := []
    lots := [{ id := 1, material_id := 1, lot_number := "L1", status := "AVAILABLE",
               created_by := some "alice" }]
    txns := [{ id := 1, material_lot_id := 1, txn_type := "RECEIPT", qty := -5,
               uom_code := "KG", direction := 1, created_by := some "alice" }]
    status_changes := []
    edits := []
    nextLotId := 2
    nextTxnId := 2 }

/-- Issue payload with quantity zero. -/
def pZeroIssue : IssueCreate :=
  { material_code := "M1", lot_number := "L1", qty := 0, uom_code := "KG" }

/-- Segment with one receipt of 100 (txn 1) and one issue of 40 at unit
price 3 (txn 2): balance 60. -/
def dbEdits : DB :=
  { materials := [matW]
    approved_manufacturers := []
    lots := [{ id := 1, material_id := 1, lot_number := "L1", status := "AVAILABLE" }]
    txns := [{ id := 1, material_lot_id := 1, txn_type := "RECEIPT", qty := 100,
               uom_code := "KG", direction := 1, unit_price := some 2,
               total_value := some 200 },
             { id := 2, material_lot_id := 1, txn_type := "ISSUE", qty := 40,
               uom_code := "KG", direction := -1, unit_price := some 3,
               total_value := some 120, material_status_at_txn := some "AVAILABLE" }]
    status_changes := []
    edits := []
    nextLotId := 2
    nextTxnId := 3 }

/-- Receipt edit lowering txn 1 from 100 to 30 (would leave balance -10). -/
def pReceiptEditNeg : ReceiptUpdate :=
  { qty := 30, edit_reason := "typo" }

/-- Issue edit raising txn 2 from 40 to 200 (available without it is 100). -/
def pIssueEditNeg : IssueUpdate :=
  { qty := 200, edit_reason := "typo" }

/-- Issue edit raising txn 2 from 40 to 50 (accepted). -/
def pIssueEditOk : IssueUpdate :=
  { qty := 50, edit_reason := "recount" }

/-! Helper lemmas shared by several claims. -/

/-- The ledger balance is additive in the transaction list. -/
lemma ledgerBalance_append (xs ys : List StockTransaction) (i : Nat) :
    ledgerBalance (xs ++ ys) i = ledgerBalance xs i + ledgerBalance ys i := by
  unfold ledgerBalance
  rw [List.filter_append, List.map_append, List.sum_append]

/-- Ties-to-even rounding of an integer plus a fraction strictly between
one half and one rounds up. -/
lemma roundHalfEven_intCast_add (m : ℤ) (c : ℚ) (h1 : 1 / 2 < c) (h2 : c < 1) :
    roundHalfEven ((m : ℚ) + c) = m + 1 := by
  have h0 : (0 : ℚ) ≤ c := le_trans (by norm_num) h1.le
  have hfl : ⌊(m : ℚ) + c⌋ = m := by
    rw [add_comm, Int.floor_add_int, Int.floor_eq_zero_iff.mpr ⟨h0, h2⟩, zero_add]
  unfold roundHalfEven
  rw [hfl]
  dsimp only
  have hr : (m : ℚ) + c - (m : ℚ) = c := by ring
  rw [hr, if_neg (by linarith), if_pos h1]

/-- C9 counterexample: the claim says a negative exact half such as
-0.125 rounds away from zero (to -0.13 at 2 decimals), but
`_round_money` adds +1e-12 before rounding, so -0.125 becomes -0.12 —
toward zero. -/
theorem C9_counterexample :
    _round_money (some (-(1 / 8))) = some (-(12 / 100)) ∧
    (-(12 : ℚ) / 100) ≠ -(13 / 100) := by
  exact ⟨by with_unfolding_all rfl, by norm_num⟩

/-- C9 amended: unit prices are rounded to 4 decimals and total values to
2 decimals by adding a 1e-12 epsilon and rounding to nearest; the epsilon
pushes every exact half upward, so halves always round toward +∞: away
from zero for positive values but toward zero for negative values. -/
theorem C9_round_halves (n : ℤ) :
    _round_money (some ((2 * (n : ℚ) + 1) / 200)) = some (((n : ℚ) + 1) / 100) ∧
    _round_unit (some ((2 * (n : ℚ) + 1) / 20000)) = some (((n : ℚ) + 1) / 10000) := by
  constructor
  · show some (pyRound ((2 * (n : ℚ) + 1) / 200 + eps12) 100) = _
    unfold pyRound eps12
    have harg : ((2 * (n : ℚ) + 1) / 200 + 1 / 10 ^ 12) * 100
        = (n : ℚ) + (1 / 2 + 1 / 10 ^ 10) := by ring
    rw [harg, roundHalfEven_intCast_add n _ (by norm_num) (by norm_num)]
    push_cast
    ring_nf
  · show some (pyRound ((2 * (n : ℚ) + 1) / 20000 + eps12) 10000) = _
    unfold pyRound eps12
    have harg : ((2 * (n : ℚ) + 1) / 20000 + 1 / 10 ^ 12) * 10000
        = (n : ℚ) + (1 / 2 + 1 / 10 ^ 8) := by ring
    rw [harg, roundHalfEven_intCast_add n _ (by norm_num) (by norm_num)]
    push_cast
    ring_nf

/-- C9 witness: the negative half -0.005 (n = -1) rounds to 0 at 2
decimals — toward zero, up toward +∞. -/
theorem C9_round_halves_witness :
    _round_money (some ((2 * ((-1 : ℤ) : ℚ) + 1) / 200))
      = some ((((-1 : ℤ) : ℚ) + 1) / 100) :=
  (C9_round_halves (-1)).1

/-- C1 (code bug): `create_receipt` accepts a payload with `qty = -5` on a
fresh lot — nothing validates receipt quantity positivity — and commits a
RECEIPT row of quantity -5, direction +1, leaving the new segment's
balance at -5 < 0, violating invariant I2b for an accepted write. -/
theorem C1_receipt_negative_balance :
    (create_receipt dbEmpty pNegReceipt "alice").map (fun r => lotBalance r.1 1)
      = .ok (-5) ∧ ((-5 : ℚ) < 0) := by
  exact ⟨by with_unfolding_all rfl, by norm_num⟩

/-- C2 (confirmed): when the validations pass and a destination segment of
the same material and printed lot number with the (raw, alias-aware)
target status exists, `change_lot_status` commits exactly two STATUS_MOVE
ledger entries — direction -1 with qty = move_qty on the source and
direction +1 with qty = move_qty on the destination — and exactly two
StatusChangeRecords: one against the source, one against the destination
whose old status is the destination's prior (normalized) status and whose
reason notes the merged amount; the `lots` table, hence the source
segment's status field, is unchanged. -/
theorem C2_merge (db : DB) (material_lot_id : Nat) (payload : LotStatusChangeCreate)
    (lot dest_lot : MaterialLot) (material : Material) (mq : ℚ)
    (hlot : findLot db material_lot_id = some lot)
    (hval : _normalise_status payload.new_status ∈ allowedLotStatuses)
    (hreason : payload.reason.trim ≠ "")
    (hchange : _normalise_status payload.new_status ≠ _normalise_status lot.status)
    (hbal : 0 < lotBalance db lot.id)
    (hmq : (if payload.whole_lot then some (lotBalance db lot.id) else payload.move_qty) = some mq)
    (hpos : 0 < mq)
    (hle : mq ≤ lotBalance db lot.id)
    (hmat : oneExact (db.materials.filter (fun m => m.id == lot.material_id)) = .ok material)
    (hdest : destLookup db lot (_normalise_status payload.new_status) = some dest_lot) :
    change_lot_status db material_lot_id payload = .ok { db with
      txns := db.txns ++
        [{ id := db.nextTxnId
           material_lot_id := lot.id
           txn_type := "STATUS_MOVE"
           qty := mq
           uom_code := material.base_uom_code
           direction := -1
           comment := some (.movedToExisting mq (_normalise_status payload.new_status) payload.reason.trim)
           created_by := stripOrNone payload.changed_by },
         { id := db.nextTxnId + 1
           material_lot_id := dest_lot.id
           txn_type := "STATUS_MOVE"
           qty := mq
           uom_code := material.base_uom_code
           direction := 1
           comment := some (.receivedFrom mq (_normalise_status lot.status) payload.reason.trim)
           created_by := stripOrNone payload.changed_by }]
      status_changes := db.status_changes ++
        [{ material_lot_id := lot.id
           old_status := _normalise_status lot.status
           new_status := _normalise_status payload.new_status
           reason := .text payload.reason.trim
           changed_by := stripOrNone payload.changed_by },
         { material_lot_id := dest_lot.id
           old_status := _normalise_status dest_lot.status
           new_status := _normalise_status payload.new_status
           reason := .mergedIn mq (_normalise_status lot.status) payload.reason.trim
           changed_by := stripOrNone payload.changed_by }]
      nextTxnId := db.nextTxnId + 2 } := by
  unfold change_lot_status
  rw [hlot]
  dsimp only
  rw [if_neg (not_not_intro hval), if_neg hreason, if_neg hchange,
    if_neg (not_le.mpr hbal), hmq]
  dsimp only
  rw [if_neg (not_le.mpr hpos), if_neg (not_lt.mpr hle), hmat, hdest]

/-- C2 witness: merging the whole QUARANTINE segment (balance 30) into the
existing AVAILABLE segment of the same lot. -/
theorem C2_merge_witness :
    change_lot_status dbMerge 1 pMerge = .ok { dbMerge with
      txns := dbMerge.txns ++
        [{ id := 3, material_lot_id := 1, txn_type := "STATUS_MOVE", qty := 30,
           uom_code := "KG", direction := -1,
           comment := some (.movedToExisting 30 "AVAILABLE" "qc ok"),
           created_by := some "eve" },
         { id := 4, material_lot_id := 2, txn_type := "STATUS_MOVE", qty := 30,
           uom_code := "KG", direction := 1,
           comment := some (.receivedFrom 30 "QUARANTINE" "qc ok"),
           created_by := some "eve" }]
      status_changes :=
        [{ material_lot_id := 1, old_status := "QUARANTINE",
           new_status := "AVAILABLE", reason := .text "qc ok",
           changed_by := some "eve" },
         { material_lot_id := 2, old_status := "AVAILABLE",
           new_status := "AVAILABLE", reason := .mergedIn 30 "QUARANTINE" "qc ok",
           changed_by := some "eve" }]
      nextTxnId := 5 } := by
  have h := C2_merge dbMerge 1 pMerge
    { id := 1, material_id := 1, lot_number := "L1", status := "QUARANTINE" }
    { id := 2, material_id := 1, lot_number := "L1", status := "AVAILABLE" }
    matW 30
    (by with_unfolding_all rfl)
    (by with_unfolding_all decide)
    (by with_unfolding_all decide)
    (by with_unfolding_all decide)
    (by with_unfolding_all decide)
    (by with_unfolding_all rfl)
    (by norm_num)
    (by with_unfolding_all decide)
    (by with_unfolding_all rfl)
    (by with_unfolding_all rfl)
  exact h.trans (by with_unfolding_all rfl)

/-- C3 (confirmed): a valid whole-lot status change with no destination
segment (Case B) commits exactly one StatusChangeRecord — old = the
source's normalized status, new = the normalized target — sets the source
segment's status field to the new status, writes zero ledger entries, and
leaves the segment's balance unchanged. -/
theorem C3_flip (db : DB) (material_lot_id : Nat) (payload : LotStatusChangeCreate)
    (lot : MaterialLot) (material : Material)
    (hlot : findLot db material_lot_id = some lot)
    (hval : _normalise_status payload.new_status ∈ allowedLotStatuses)
    (hreason : payload.reason.trim ≠ "")
    (hchange : _normalise_status payload.new_status ≠ _normalise_status lot.status)
    (hbal : 0 < lotBalance db lot.id)
    (hwhole : payload.whole_lot = true)
    (hmat : oneExact (db.materials.filter (fun m => m.id == lot.material_id)) = .ok material)
    (hdest : destLookup db lot (_normalise_status payload.new_status) = none) :
    change_lot_status db material_lot_id payload = .ok { db with
      lots := db.lots.map (fun m =>
        if m.id == lot.id then { m with status := _normalise_status payload.new_status } else m)
      status_changes := db.status_changes ++
        [{ material_lot_id := lot.id
           old_status := _normalise_status lot.status
           new_status := _normalise_status payload.new_status
           reason := .text payload.reason.trim
           changed_by := stripOrNone payload.changed_by }] } ∧
    lotBalance { db with
      lots := db.lots.map (fun m =>
        if m.id == lot.id then { m with status := _normalise_status payload.new_status } else m)
      status_changes := db.status_changes ++
        [{ material_lot_id := lot.id
           old_status := _normalise_status lot.status
           new_status := _normalise_status payload.new_status
           reason := .text payload.reason.trim
           changed_by := stripOrNone payload.changed_by }] } lot.id
      = lotBalance db lot.id := by
  refine ⟨?_, rfl⟩
  unfold change_lot_status
  rw [hlot]
  dsimp only
  rw [if_neg (not_not_intro hval), if_neg hreason, if_neg hchange,
    if_neg (not_le.mpr hbal), if_pos hwhole]
  dsimp only
  rw [if_neg (not_le.mpr hbal), if_neg (lt_irrefl (lotBalance db lot.id)), hmat, hdest]
  dsimp only
  rw [if_pos hwhole]

/-- C3 witness: whole-lot QUARANTINE to AVAILABLE flip of a balance-150
segment with no destination. -/
theorem C3_flip_witness :
    change_lot_status dbFlip 1 pFlip = .ok { dbFlip with
      lots := [{ id := 1, material_id := 1, lot_number := "L1", status := "AVAILABLE" }]
      status_changes :=
        [{ material_lot_id := 1, old_status := "QUARANTINE",
           new_status := "AVAILABLE", reason := .text "qc passed",
           changed_by := none }] } ∧
    (150 : ℚ) = 150 := by
  have h := C3_flip dbFlip 1 pFlip
    { id := 1, material_id := 1, lot_number := "L1", status := "QUARANTINE" }
    matW
    (by with_unfolding_all rfl)
    (by with_unfolding_all decide)
    (by with_unfolding_all decide)
    (by with_unfolding_all decide)
    (by with_unfolding_all decide)
    rfl
    (by with_unfolding_all rfl)
    (by with_unfolding_all rfl)
  exact ⟨h.1.trans (by with_unfolding_all rfl), rfl⟩

/-- C4 counterexample: the claim says the split writes a
StatusChangeRecord on the source whose old AND new status both equal the
source's status, annotated as a split; but on a concrete split (50 of 150
AVAILABLE units to REJECTED) the source-side record has
new_status = "REJECTED" ≠ "AVAILABLE" and carries the plain reason with no
split annotation. -/
theorem C4_counterexample :
    (change_lot_status dbSplit 1 pSplit).map (fun d => d.status_changes) =
      .ok [{ material_lot_id := 1, old_status := "AVAILABLE",
             new_status := "REJECTED", reason := .text "damaged",
             changed_by := none },
           { material_lot_id := 2, old_status := "AVAILABLE",
             new_status := "REJECTED", reason := .text "damaged",
             changed_by := none }] ∧
    "REJECTED" ≠ "AVAILABLE" := by
  exact ⟨by with_unfolding_all rfl, by decide⟩

/-- C4 amended: a valid partial status change with no destination (Case C)
creates a new segment sharing the source's material, printed lot number,
expiry date, manufacturer and supplier with status = the normalized
target, commits paired STATUS_MOVE entries (-1 on the source, +1 on the
new segment, both with qty = move_qty), leaves the source's status field
untouched, and writes two identical StatusChangeRecords — one on the
source and one on the new segment — both with old = the source's
normalized status, new = the target, and the plain trimmed reason (no
split annotation). -/
theorem C4_split (db : DB) (material_lot_id : Nat) (payload : LotStatusChangeCreate)
    (lot : MaterialLot) (material : Material) (mq : ℚ)
    (hlot : findLot db material_lot_id = some lot)
    (hval : _normalise_status payload.new_status ∈ allowedLotStatuses)
    (hreason : payload.reason.trim ≠ "")
    (hchange : _normalise_status payload.new_status ≠ _normalise_status lot.status)
    (hbal : 0 < lotBalance db lot.id)
    (hwhole : payload.whole_lot = false)
    (hmq : payload.move_qty = some mq)
    (hpos : 0 < mq)
    (hle : mq ≤ lotBalance db lot.id)
    (hmat : oneExact (db.materials.filter (fun m => m.id == lot.material_id)) = .ok material)
    (hdest : destLookup db lot (_normalise_status payload.new_status) = none) :
    change_lot_status db material_lot_id payload = .ok { db with
      lots := db.lots ++
        [{ id := db.nextLotId
           material_id := lot.material_id
           lot_number := lot.lot_number
           expiry_date := lot.expiry_date
           status := _normalise_status payload.new_status
           manufacturer := lot.manufacturer
           supplier := lot.supplier
           created_by := stripOrNone payload.changed_by }]
      nextLotId := db.nextLotId + 1
      txns := db.txns ++
        [{ id := db.nextTxnId
           material_lot_id := lot.id
           txn_type := "STATUS_MOVE"
           qty := mq
           uom_code := material.base_uom_code
           direction := -1
           comment := some (.movedToNew mq (_normalise_status payload.new_status) payload.reason.trim)
           created_by := stripOrNone payload.changed_by },
         { id := db.nextTxnId + 1
           material_lot_id := db.nextLotId
           txn_type := "STATUS_MOVE"
           qty := mq
           uom_code := material.base_uom_code
           direction := 1
           comment := some (.receivedFrom mq (_normalise_status lot.status) payload.reason.trim)
           created_by := stripOrNone payload.changed_by }]
      status_changes := db.status_changes ++
        [{ material_lot_id := lot.id
           old_status := _normalise_status lot.status
           new_status := _normalise_status payload.new_status
           reason := .text payload.reason.trim
           changed_by := stripOrNone payload.changed_by },
         { material_lot_id := db.nextLotId
           old_status := _normalise_status lot.status
           new_status := _normalise_status payload.new_status
           reason := .text payload.reason.trim
           changed_by := stripOrNone payload.changed_by }]
      nextTxnId := db.nextTxnId + 2 } := by
  unfold change_lot_status
  rw [hlot]
  dsimp only
  rw [if_neg (not_not_intro hval), if_neg hreason, if_neg hchange,
    if_neg (not_le.mpr hbal), if_neg (by simp [hwhole]), hmq]
  dsimp only
  rw [if_neg (not_le.mpr hpos), if_neg (not_lt.mpr hle), hmat, hdest]
  dsimp only
  rw [if_neg (by simp [hwhole])]

/-- C4 witness: splitting 50 of the 150 AVAILABLE units into a new
REJECTED segment. -/
theorem C4_split_witness :
    change_lot_status dbSplit 1 pSplit = .ok { dbSplit with
      lots := dbSplit.lots ++
        [{ id := 2, material_id := 1, lot_number := "L1", status := "REJECTED" }]
      nextLotId := 3
      txns := dbSplit.txns ++
        [{ id := 2, material_lot_id := 1, txn_type := "STATUS_MOVE", qty := 50,
           uom_code := "KG", direction := -1,
           comment := some (.movedToNew 50 "REJECTED" "damaged") },
         { id := 3, material_lot_id := 2, txn_type := "STATUS_MOVE", qty := 50,
           uom_code := "KG", direction := 1,
           comment := some (.receivedFrom 50 "AVAILABLE" "damaged") }]
      status_changes :=
        [{ material_lot_id := 1, old_status := "AVAILABLE",
           new_status := "REJECTED", reason := .text "damaged",
           changed_by := none },
         { material_lot_id := 2, old_status := "AVAILABLE",
           new_status := "REJECTED", reason := .text "damaged",
           changed_by := none }]
      nextTxnId := 4 } := by
  have h := C4_split dbSplit 1 pSplit
    { id := 1, material_id := 1, lot_number := "L1", status := "AVAILABLE" }
    matW 50
    (by with_unfolding_all rfl)
    (by with_unfolding_all decide)
    (by with_unfolding_all decide)
    (by with_unfolding_all decide)
    (by with_unfolding_all decide)
    rfl
    rfl
    (by norm_num)
    (by with_unfolding_all decide)
    (by with_unfolding_all rfl)
    (by with_unfolding_all rfl)
  exact h.trans (by with_unfolding_all rfl)

/-- C5 counterexample: the claim says a partial move_qty exceeding the
balance by at most 1e-9 is accepted (1e-9 tolerance); but the code
compares exactly, and a move of 150 + 1e-9 against balance 150 — an
excess of exactly 1e-9 — is rejected. -/
theorem C5_counterexample :
    change_lot_status dbSplit 1 pOverBalance =
      .error (.moveQtyExceedsBalance 150 (150 + 1 / 10 ^ 9)) ∧
    (150 + 1 / 10 ^ 9 : ℚ) - 150 ≤ 1 / 10 ^ 9 := by
  exact ⟨by with_unfolding_all rfl, by norm_num⟩

/-- C5 amended: for a partial status-change request that passes the
earlier validations, the request is rejected with a validation error and
zero writes unless move_qty is provided, is strictly greater than zero,
and does not exceed the segment's current balance under EXACT comparison
(no tolerance: any positive excess, even 1e-9, is rejected); a rejection
for exceeding the balance carries the balance and the requested quantity
and HTTP status 400. -/
theorem C5_partial_validation (db : DB) (material_lot_id : Nat)
    (payload : LotStatusChangeCreate) (lot : MaterialLot)
    (hlot : findLot db material_lot_id = some lot)
    (hval : _normalise_status payload.new_status ∈ allowedLotStatuses)
    (hreason : payload.reason.trim ≠ "")
    (hchange : _normalise_status payload.new_status ≠ _normalise_status lot.status)
    (hbal : 0 < lotBalance db lot.id)
    (hwhole : payload.whole_lot = false) :
    (payload.move_qty = none →
      change_lot_status db material_lot_id payload = .error .moveQtyRequired) ∧
    (∀ q : ℚ, payload.move_qty = some q → q ≤ 0 →
      change_lot_status db material_lot_id payload = .error .moveQtyNotPositive) ∧
    (∀ q : ℚ, payload.move_qty = some q → 0 < q → lotBalance db lot.id < q →
      change_lot_status db material_lot_id payload =
        .error (.moveQtyExceedsBalance (lotBalance db lot.id) q) ∧
      (ApiError.moveQtyExceedsBalance (lotBalance db lot.id) q).statusCode = 400) ∧
    (∀ (q : ℚ) (material : Material), payload.move_qty = some q → 0 < q →
      ¬ lotBalance db lot.id < q →
      oneExact (db.materials.filter (fun m => m.id == lot.material_id)) = .ok material →
      isAccepted (change_lot_status db material_lot_id payload) = true) := by
  refine ⟨?_, ?_, ?_, ?_⟩
  · intro hmq
    unfold change_lot_status
    rw [hlot]
    dsimp only
    rw [if_neg (not_not_intro hval), if_neg hreason, if_neg hchange,
      if_neg (not_le.mpr hbal), if_neg (by simp [hwhole]), hmq]
  · intro q hmq hq
    unfold change_lot_status
    rw [hlot]
    dsimp only
    rw [if_neg (not_not_intro hval), if_neg hreason, if_neg hchange,
      if_neg (not_le.mpr hbal), if_neg (by simp [hwhole]), hmq]
    dsimp only
    rw [if_pos hq]
  · intro q hmq hq hgt
    refine ⟨?_, rfl⟩
    unfold change_lot_status
    rw [hlot]
    dsimp only
    rw [if_neg (not_not_intro hval), if_neg hreason, if_neg hchange,
      if_neg (not_le.mpr hbal), if_neg (by simp [hwhole]), hmq]
    dsimp only
    rw [if_neg (not_le.mpr hq), if_pos hgt]
  · intro q material hmq hq hle hmat
    unfold change_lot_status
    rw [hlot]
    dsimp only
    rw [if_neg (not_not_intro hval), if_neg hreason, if_neg hchange,
      if_neg (not_le.mpr hbal), if_neg (by simp [hwhole]), hmq]
    dsimp only
    rw [if_neg (not_le.mpr hq), if_neg hle, hmat]
    dsimp only
    cases hdl : destLookup db lot (_normalise_status payload.new_status) with
    | some dest => rfl
    | none =>
      dsimp only
      rw [if_neg (by simp [hwhole])]
      rfl

/-- C5 witness: on the balance-150 segment, a partial move of 150 + 1e-9
is rejected with the balance and the requested quantity in the error. -/
theorem C5_partial_validation_witness :
    change_lot_status dbSplit 1 pOverBalance =
      .error (.moveQtyExceedsBalance 150 (150 + 1 / 10 ^ 9)) ∧
    (ApiError.moveQtyExceedsBalance 150 (150 + 1 / 10 ^ 9)).statusCode = 400 := by
  have h := C5_partial_validation dbSplit 1 pOverBalance
    { id := 1, material_id := 1, lot_number := "L1", status := "AVAILABLE" }
    (by with_unfolding_all rfl)
    (by with_unfolding_all decide)
    (by with_unfolding_all decide)
    (by with_unfolding_all decide)
    (by with_unfolding_all decide)
    rfl
  have h3 := h.2.2.1 (150 + 1 / 10 ^ 9) rfl (by norm_num)
    (by with_unfolding_all decide)
  exact ⟨h3.1.trans (by with_unfolding_all rfl), rfl⟩

/-- C6 counterexample: the claim says a caller-supplied total value takes
priority, giving unit = total/qty (here 500/10 = 50); but `IssueCreate`
has no such field, the request's pricing keys are dropped, and the stored
unit price is the weighted RECEIPT average 2 ≠ 50. -/
theorem C6_counterexample :
    (createIssueEndpoint dbPriced reqPricedIssue "bob").map (fun r => r.2.unit_price)
      = .ok (some 2) ∧
    (2 : ℚ) ≠ 500 / 10 := by
  exact ⟨by with_unfolding_all rfl, by norm_num⟩

/-- C6 amended: for every accepted ISSUE creation, caller-supplied unit
price or total value is ignored (the schema has no such fields, so the
keys are dropped); the stored unit price is always the weighted average
over the segment's RECEIPT history — Σ(total_value, with a missing
total_value treated as unit_price*qty and a fully unpriced receipt as 0)
divided by Σ(qty), rounded to 4 decimals — with total value rounded from
qty times that unit price; when the total received quantity is ≤ 0, both
stored fields are null. -/
theorem C6_issue_costing (db : DB) (req : IssueCreateRequest) (created_by : String)
    (material : Material) (db1 : DB) (lot : MaterialLot)
    (hmat : oneOrNone (db.materials.filter (fun m =>
      m.material_code == req.material_code)) = .ok (some material))
    (hres : issueLot db material (parseIssueCreate req) created_by = .ok (db1, lot))
    (hbal : ¬ lotBalance db1 lot.id < req.qty) :
    (∀ up tv : Option ℚ,
      createIssueEndpoint db { req with unit_price := up, total_value := tv } created_by
        = createIssueEndpoint db req created_by) ∧
    (createIssueEndpoint db req created_by).map (fun r => (r.2.unit_price, r.2.total_value))
      = .ok (_lot_weighted_unit_price db1 lot.id,
          match _lot_weighted_unit_price db1 lot.id with
          | some up => _round_money (some (req.qty * up))
          | none => none) ∧
    (lotReceiptQtySum db1 lot.id ≤ 0 →
      (createIssueEndpoint db req created_by).map (fun r => (r.2.unit_price, r.2.total_value))
        = .ok (none, none)) := by
  have key : (createIssueEndpoint db req created_by).map
      (fun r => (r.2.unit_price, r.2.total_value))
      = .ok (_lot_weighted_unit_price db1 lot.id,
          match _lot_weighted_unit_price db1 lot.id with
          | some up => _round_money (some (req.qty * up))
          | none => none) := by
    unfold createIssueEndpoint create_issue
    have hmat' : oneOrNone (db.materials.filter (fun m =>
        m.material_code == (parseIssueCreate req).material_code)) = .ok (some material) := hmat
    rw [hmat']
    dsimp only
    rw [hres]
    dsimp only [parseIssueCreate]
    rw [if_neg hbal]
    rfl
  refine ⟨fun up tv => rfl, key, fun hsum => ?_⟩
  have hw : _lot_weighted_unit_price db1 lot.id = none := by
    unfold _lot_weighted_unit_price
    rw [if_pos hsum]
  rw [key, hw]

/-- C6 witness: issuing 10 units against a lot with one receipt of 100
units at total value 200 stores unit price 2 and total value 20, although
the caller sent unit_price 50 and total_value 500. -/
theorem C6_issue_costing_witness :
    (createIssueEndpoint dbPriced reqPricedIssue "bob").map
      (fun r => (r.2.unit_price, r.2.total_value)) = .ok (some 2, some 20) := by
  have h := C6_issue_costing dbPriced reqPricedIssue "bob" matW dbPriced
    { id := 1, material_id := 1, lot_number := "L1", status := "AVAILABLE" }
    (by with_unfolding_all rfl)
    (by with_unfolding_all rfl)
    (by with_unfolding_all decide)
  exact h.2.1.trans (by with_unfolding_all rfl)

/-- C7 (confirmed): editing a receipt or an issue (with non-empty reason)
computes the segment balance as if the entry's original quantity were
removed and rejects with a validation error whenever the new quantity
would drive that balance below -1e-9; the raise happens before any
mutation, so the rejected transaction leaves the ledger entry untouched
and writes no EditRecord. -/
theorem C7_edit_balance_guard :
    (∀ (db : DB) (receipt_id : Nat) (payload : ReceiptUpdate) (username : String)
        (txn : StockTransaction) (lot : MaterialLot) (material : Material),
      payload.edit_reason.trim ≠ "" →
      oneOrNone (db.txns.filter (fun t => t.id == receipt_id)) = .ok (some txn) →
      txn.txn_type = "RECEIPT" →
      oneExact (db.lots.filter (fun m => m.id == txn.material_lot_id)) = .ok lot →
      oneExact (db.materials.filter (fun m => m.id == lot.material_id)) = .ok material →
      lotBalance db txn.material_lot_id - txn.qty + payload.qty < -(1 / 10 ^ 9) →
      update_receipt db receipt_id payload username =
        .error (.editNegativeBalance lot.lot_number
          (lotBalance db txn.material_lot_id - txn.qty + payload.qty))) ∧
    (∀ (db : DB) (issue_id : Nat) (payload : IssueUpdate) (username : String)
        (txn : StockTransaction) (lot : MaterialLot) (material : Material),
      payload.edit_reason.trim ≠ "" →
      oneOrNone (db.txns.filter (fun t => t.id == issue_id)) = .ok (some txn) →
      txn.txn_type = "ISSUE" →
      oneExact (db.lots.filter (fun m => m.id == txn.material_lot_id)) = .ok lot →
      oneExact (db.materials.filter (fun m => m.id == lot.material_id)) = .ok material →
      lotBalance db txn.material_lot_id + txn.qty - payload.qty < -(1 / 10 ^ 9) →
      update_issue db issue_id payload username =
        .error (.insufficientStock lot.lot_number
          (lotBalance db txn.material_lot_id + txn.qty) payload.qty)) := by
  constructor
  · intro db receipt_id payload username txn lot material hreason htxn htype hlot hmat hneg
    unfold update_receipt
    rw [if_neg hreason, htxn]
    dsimp only
    rw [if_neg (not_not_intro htype), hlot]
    dsimp only
    rw [hmat]
    dsimp only
    rw [if_pos hneg]
  · intro db issue_id payload username txn lot material hreason htxn htype hlot hmat hneg
    unfold update_issue
    rw [if_neg hreason, htxn]
    dsimp only
    rw [if_neg (not_not_intro htype), hlot]
    dsimp only
    rw [hmat]
    dsimp only
    rw [if_pos (by linarith)]

/-- C7 witness: on the balance-60 segment (receipt 100, issue 40), editing
the receipt down to 30 and editing the issue up to 200 are both rejected
with the computed would-be balances in the message. -/
theorem C7_edit_balance_guard_witness :
    update_receipt dbEdits 1 pReceiptEditNeg "carol" =
      .error (.editNegativeBalance "L1" (-10)) ∧
    update_issue dbEdits 2 pIssueEditNeg "carol" =
      .error (.insufficientStock "L1" 100 200) := by
  constructor
  · have h := C7_edit_balance_guard.1 dbEdits 1 pReceiptEditNeg "carol"
      { id := 1, material_lot_id := 1, txn_type := "RECEIPT", qty := 100,
        uom_code := "KG", direction := 1, unit_price := some 2,
        total_value := some 200 }
      { id := 1, material_id := 1, lot_number := "L1", status := "AVAILABLE" }
      matW
      (by with_unfolding_all decide)
      (by with_unfolding_all rfl)
      rfl
      (by with_unfolding_all rfl)
      (by with_unfolding_all rfl)
      (by with_unfolding_all decide)
    exact h.trans (by with_unfolding_all rfl)
  · have h := C7_edit_balance_guard.2 dbEdits 2 pIssueEditNeg "carol"
      { id := 2, material_lot_id := 1, txn_type := "ISSUE", qty := 40,
        uom_code := "KG", direction := -1, unit_price := some 3,
        total_value := some 120, material_status_at_txn := some "AVAILABLE" }
      { id := 1, material_id := 1, lot_number := "L1", status := "AVAILABLE" }
      matW
      (by with_unfolding_all decide)
      (by with_unfolding_all rfl)
      rfl
      (by with_unfolding_all rfl)
      (by with_unfolding_all rfl)
      (by with_unfolding_all decide)
    exact h.trans (by with_unfolding_all rfl)

/-- C8 (confirmed): an accepted ISSUE edit keeps an already-present unit
price unchanged and only recomputes the total value against the new
quantity; a null unit price is recomputed as the weighted average of the
segment's RECEIPT history; and the status-at-entry snapshot field is never
altered by the edit. -/
theorem C8_issue_edit_costing (db : DB) (issue_id : Nat) (payload : IssueUpdate)
    (username : String) (txn : StockTransaction) (lot : MaterialLot) (material : Material)
    (hreason : payload.edit_reason.trim ≠ "")
    (htxn : oneOrNone (db.txns.filter (fun t => t.id == issue_id)) = .ok (some txn))
    (htype : txn.txn_type = "ISSUE")
    (hlot : oneExact (db.lots.filter (fun m => m.id == txn.material_lot_id)) = .ok lot)
    (hmat : oneExact (db.materials.filter (fun m => m.id == lot.material_id)) = .ok material)
    (hok : ¬ lotBalance db txn.material_lot_id + txn.qty + 1 / 10 ^ 9 < payload.qty) :
    update_issue db issue_id payload username = .ok { db with
      txns := db.txns.map (fun t =>
        if t.id == txn.id then issueEditTxn db txn lot payload else t)
      edits := db.edits ++
        [{ stock_transaction_id := txn.id
           edited_by := username
           edit_reason := payload.edit_reason.trim
           before_json := txn
           after_json := issueEditTxn db txn lot payload }] } ∧
    (issueEditTxn db txn lot payload).material_status_at_txn = txn.material_status_at_txn ∧
    (∀ u : ℚ, txn.unit_price = some u →
      (issueEditTxn db txn lot payload).unit_price = some u ∧
      (issueEditTxn db txn lot payload).total_value = _round_money (some (payload.qty * u))) ∧
    (txn.unit_price = none →
      (issueEditTxn db txn lot payload).unit_price = _lot_weighted_unit_price db lot.id) := by
  refine ⟨?_, ?_, ?_, ?_⟩
  · unfold update_issue
    rw [if_neg hreason, htxn]
    dsimp only
    rw [if_neg (not_not_intro htype), hlot]
    dsimp only
    rw [hmat]
    dsimp only
    rw [if_neg hok]
  · rfl
  · intro u hu
    unfold issueEditTxn
    rw [hu]
    exact ⟨rfl, rfl⟩
  · intro hu
    unfold issueEditTxn
    rw [hu]

/-- C8 witness: editing the priced issue (unit price 3) from 40 to 50
units preserves unit price 3, recomputes total value to 150, and keeps
the AVAILABLE status snapshot. -/
theorem C8_issue_edit_costing_witness :
    update_issue dbEdits 2 pIssueEditOk "carol" = .ok { dbEdits with
      txns := [{ id := 1, material_lot_id := 1, txn_type := "RECEIPT", qty := 100,
                 uom_code := "KG", direction := 1, unit_price := some 2,
                 total_value := some 200 },
               { id := 2, material_lot_id := 1, txn_type := "ISSUE", qty := 50,
                 uom_code := "KG", direction := -1, unit_price := some 3,
                 total_value := some 150, material_status_at_txn := some "AVAILABLE" }]
      edits := [{ stock_transaction_id := 2
                  edited_by := "carol"
                  edit_reason := "recount"
                  before_json :=
                    { id := 2, material_lot_id := 1, txn_type := "ISSUE", qty := 40,
                      uom_code := "KG", direction := -1, unit_price := some 3,
                      total_value := some 120, material_status_at_txn := some "AVAILABLE" }
                  after_json :=
                    { id := 2, material_lot_id := 1, txn_type := "ISSUE", qty := 50,
                      uom_code := "KG", direction := -1, unit_price := some 3,
                      total_value := some 150,
                      material_status_at_txn := some "AVAILABLE" } }] } := by
  have h := C8_issue_edit_costing dbEdits 2 pIssueEditOk "carol"
    { id := 2, material_lot_id := 1, txn_type := "ISSUE", qty := 40,
      uom_code := "KG", direction := -1, unit_price := some 3,
      total_value := some 120, material_status_at_txn := some "AVAILABLE" }
    { id := 1, material_id := 1, lot_number := "L1", status := "AVAILABLE" }
    matW
    (by with_unfolding_all decide)
    (by with_unfolding_all rfl)
    rfl
    (by with_unfolding_all rfl)
    (by with_unfolding_all rfl)
    (by with_unfolding_all decide)
  exact h.1.trans (by with_unfolding_all rfl)

/-- C10 counterexample: the claim says an issue with zero or negative
quantity is never rejected by the insufficient-stock check; but on a
segment with negative balance (-5, reachable via the accepted
negative-quantity receipt of C1) a zero-quantity issue IS rejected by
exactly that check. -/
theorem C10_counterexample :
    create_issue dbNegBalance pZeroIssue "bob" =
      .error (.insufficientStock "L1" (-5) 0) ∧
    pZeroIssue.qty ≤ 0 := by
  exact ⟨by with_unfolding_all rfl, by with_unfolding_all decide⟩

/-- C10 amended: once the material and segment resolve, `create_issue`
rejects with the insufficient-stock error if and only if the segment's
balance is strictly less than the requested quantity under exact
comparison (no epsilon, unlike the edit paths); an issue whose quantity
exactly equals the balance is accepted and drives the balance to exactly
zero; and an issue with zero or negative quantity is never rejected by
this check PROVIDED the balance is non-negative (on a negative balance —
reachable — even a zero-quantity issue is rejected). -/
theorem C10_insufficient_iff (db : DB) (payload : IssueCreate) (created_by : String)
    (material : Material) (db1 : DB) (lot : MaterialLot)
    (hmat : oneOrNone (db.materials.filter (fun m =>
      m.material_code == payload.material_code)) = .ok (some material))
    (hres : issueLot db material payload created_by = .ok (db1, lot)) :
    (create_issue db payload created_by =
        .error (.insufficientStock lot.lot_number (lotBalance db1 lot.id) payload.qty)
      ↔ lotBalance db1 lot.id < payload.qty) ∧
    (payload.qty = lotBalance db1 lot.id →
      (create_issue db payload created_by).map (fun r => lotBalance r.1 lot.id) = .ok 0) ∧
    (0 ≤ lotBalance db1 lot.id → payload.qty ≤ 0 →
      isAccepted (create_issue db payload created_by) = true) := by
  have hred : create_issue db payload created_by =
      if lotBalance db1 lot.id < payload.qty then
        .error (.insufficientStock lot.lot_number (lotBalance db1 lot.id) payload.qty)
      else
        .ok ({ db1 with
          txns := db1.txns ++
            [{ id := db1.nextTxnId
               material_lot_id := lot.id
               txn_type := "ISSUE"
               consumption_type :=
                 if payload.consumption_type = "" then "USAGE" else payload.consumption_type
               qty := payload.qty
               uom_code := payload.uom_code
               direction := -1
               unit_price := _lot_weighted_unit_price db1 lot.id
               total_value :=
                 match _lot_weighted_unit_price db1 lot.id with
                 | some up => _round_money (some (payload.qty * up))
                 | none => none
               target_ref := payload.target_ref
               product_batch_no := payload.product_batch_no
               product_manufacture_date := payload.product_manufacture_date
               comment := payload.comment.map Note.text
               material_status_at_txn := some lot.status
               created_by := some created_by }]
          nextTxnId := db1.nextTxnId + 1 },
          { id := db1.nextTxnId
            material_lot_id := lot.id
            txn_type := "ISSUE"
            consumption_type :=
              if payload.consumption_type = "" then "USAGE" else payload.consumption_type
            qty := payload.qty
            uom_code := payload.uom_code
            direction := -1
            unit_price := _lot_weighted_unit_price db1 lot.id
            total_value :=
              match _lot_weighted_unit_price db1 lot.id with
              | some up => _round_money (some (payload.qty * up))
              | none => none
            target_ref := payload.target_ref
            product_batch_no := payload.product_batch_no
            product_manufacture_date := payload.product_manufacture_date
            comment := payload.comment.map Note.text
            material_status_at_txn := some lot.status
            created_by := some created_by }) := by
    unfold create_issue
    rw [hmat]
    dsimp only
    rw [hres]
  refine ⟨?_, ?_, ?_⟩
  · constructor
    · intro h
      by_contra hn
      rw [hred, if_neg hn] at h
      exact absurd h (by simp)
    · intro h
      rw [hred, if_pos h]
  · intro heq
    rw [hred, if_neg (by rw [heq]; exact lt_irrefl _)]
    simp only [Except.map, lotBalance, ledgerBalance_append]
    simp only [ledgerBalance, List.filter, beq_self_eq_true, List.map, List.sum]
    push_cast
    rw [heq]
    simp [lotBalance, ledgerBalance, List.sum_eq_foldr]
  · intro h0 hq
    rw [hred, if_neg (not_lt.mpr (le_trans hq h0))]
    rfl

/-- C10 witness: issuing exactly the whole balance (100) of the priced
segment is accepted and leaves the balance at exactly zero. -/
theorem C10_insufficient_iff_witness :
    (create_issue dbPriced pWholeIssue "bob").map (fun r => lotBalance r.1 1)
      = .ok 0 := by
  have h := C10_insufficient_iff dbPriced pWholeIssue "bob" matW dbPriced
    { id := 1, material_id := 1, lot_number := "L1", status := "AVAILABLE" }
    (by with_unfolding_all rfl)
    (by with_unfolding_all rfl)
  exact h.2.1 (by with_unfolding_all rfl)

end StockControl
